import Mathlib

/-!
Shallow embedding of the mbsw_typechecker repository (Rust): a minimal
statically typed expression language over integers and booleans, with a
structural type checker and a companion evaluator.

Sources embedded:
- src/src/expression.rs : enum Expr, enum Type, Display for Expr
- src/src/util.rs       : enum Either
- src/src/typecheck.rs  : fn typecheck, fn eval_t

Rust i32 arithmetic is modelled as mathematical integers wrapped to the
signed 32-bit range (two's-complement wrapping, the release-profile
semantics of overflow). Rust Result is modelled by Except, with Ok as
Except.ok and Err as Except.error; the question-mark operator on a
Result becomes an explicit match that propagates the error branch.
-/

namespace MbswTypechecker

/-- enum Expr from src/src/expression.rs. Boxed children become plain
recursive arguments. -/
inductive Expr where
  | One : Expr
  | Zero : Expr
  | ETrue : Expr
  | EFalse : Expr
  | Plus : Expr → Expr → Expr
  | Mult : Expr → Expr → Expr
  | Or : Expr → Expr → Expr
  | And : Expr → Expr → Expr
deriving DecidableEq, Repr

/-- enum Type from src/src/expression.rs (named Ty here because Type is
reserved in Lean). -/
inductive Ty where
  | IntType : Ty
  | BoolType : Ty
deriving DecidableEq, Repr

/-- enum Either from src/src/util.rs. -/
inductive Either (A : Type) (B : Type) where
  | Left : A → Either A B
  | Right : B → Either A B
deriving DecidableEq, Repr

/-- Two's-complement wrapping of a mathematical integer into the i32
range, used to model Rust release-mode i32 overflow. -/
def wrap32 (x : Int) : Int := (x + 2 ^ 31) % 2 ^ 32 - 2 ^ 31

/-- i32 addition. -/
def addI32 (a b : Int) : Int := wrap32 (a + b)

/-- i32 multiplication. -/
def mulI32 (a b : Int) : Int := wrap32 (a * b)

/-- fn typecheck from src/src/typecheck.rs. Each question-mark
propagation on a child result is an explicit match on the error branch. -/
def typecheck : Expr → Except String Ty
  | .One => .ok .IntType
  | .Zero => .ok .IntType
  | .ETrue => .ok .BoolType
  | .EFalse => .ok .BoolType
  | .Plus e1 e2 =>
    match typecheck e1 with
    | .error m => .error m
    | .ok r1 =>
      match typecheck e2 with
      | .error m => .error m
      | .ok r2 =>
        match r1, r2 with
        | .IntType, .IntType => .ok .IntType
        | _, _ => .error "Plus expression expects int types on both sides! "
  | .Mult e1 e2 =>
    match typecheck e1 with
    | .error m => .error m
    | .ok r1 =>
      match typecheck e2 with
      | .error m => .error m
      | .ok r2 =>
        match r1, r2 with
        | .IntType, .IntType => .ok .IntType
        | _, _ => .error "Mult expression expects int types on both sides! "
  | .Or e1 e2 =>
    match typecheck e1 with
    | .error m => .error m
    | .ok r1 =>
      match typecheck e2 with
      | .error m => .error m
      | .ok r2 =>
        match r1, r2 with
        | .BoolType, .BoolType => .ok .BoolType
        | _, _ => .error "Mult expression expects bool types on both sides! "
  | .And e1 e2 =>
    match typecheck e1 with
    | .error m => .error m
    | .ok r1 =>
      match typecheck e2 with
      | .error m => .error m
      | .ok r2 =>
        match r1, r2 with
        | .BoolType, .BoolType => .ok .BoolType
        | _, _ => .error "Mult expression expects bool types on both sides! "

/-- fn eval_t from src/src/typecheck.rs. Note the Mult arm: the source
calls eval_t(e1) for BOTH sub-results, never touching e2; the embedding
reproduces that exactly. -/
def eval_t : Expr → Except String (Either Int Bool)
  | .One => .ok (.Left 1)
  | .Zero => .ok (.Left 0)
  | .ETrue => .ok (.Right true)
  | .EFalse => .ok (.Right false)
  | .Plus e1 e2 =>
    match eval_t e1 with
    | .error m => .error m
    | .ok r1 =>
      match eval_t e2 with
      | .error m => .error m
      | .ok r2 =>
        match r1, r2 with
        | .Left a, .Left b => .ok (.Left (addI32 a b))
        | _, _ => .error "Incompatible Types!"
  | .Mult e1 e2 =>
    match eval_t e1 with
    | .error m => .error m
    | .ok r1 =>
      match eval_t e1 with
      | .error m => .error m
      | .ok r2 =>
        match r1, r2 with
        | .Left a, .Left b => .ok (.Left (mulI32 a b))
        | _, _ => .error "Incompatible Types!"
  | .Or e1 e2 =>
    match eval_t e1 with
    | .error m => .error m
    | .ok r1 =>
      match eval_t e2 with
      | .error m => .error m
      | .ok r2 =>
        match r1, r2 with
        | .Right a, .Right b => .ok (.Right (a || b))
        | _, _ => .error "Incompatible Types!"
  | .And e1 e2 =>
    match eval_t e1 with
    | .error m => .error m
    | .ok r1 =>
      match eval_t e2 with
      | .error m => .error m
      | .ok r2 =>
        match r1, r2 with
        | .Right a, .Right b => .ok (.Right (a && b))
        | _, _ => .error "Incompatible Types!"

/-- impl Display for Expr from src/src/expression.rs: the fmt method,
rendered as the string the formatter would produce. -/
def fmt : Expr → String
  | .One => "1"
  | .Zero => "0"
  | .ETrue => "true"
  | .EFalse => "false"
  | .Plus left right => "(" ++ fmt left ++ " + " ++ fmt right ++ ")"
  | .Mult left right => "(" ++ fmt left ++ " * " ++ fmt right ++ ")"
  | .Or left right => "(" ++ fmt left ++ " || " ++ fmt right ++ ")"
  | .And left right => "(" ++ fmt left ++ " && " ++ fmt right ++ ")"

/-! Helper lemmas: case characterizations of typecheck on binary nodes. -/

lemma typecheck_Plus_ok_iff (l r : Expr) :
    typecheck (.Plus l r) = .ok .IntType ↔
      (typecheck l = .ok .IntType ∧ typecheck r = .ok .IntType) := by
  simp only [typecheck]
  cases h1 : typecheck l with
  | error m => simp [h1]
  | ok t1 =>
    cases h2 : typecheck r with
    | error m => cases t1 <;> simp
    | ok t2 => cases t1 <;> cases t2 <;> simp

lemma typecheck_Plus_ne_Bool (l r : Expr) :
    typecheck (.Plus l r) ≠ .ok .BoolType := by
  simp only [typecheck]
  cases h1 : typecheck l with
  | error m => simp
  | ok t1 =>
    cases h2 : typecheck r with
    | error m => cases t1 <;> simp
    | ok t2 => cases t1 <;> cases t2 <;> simp

lemma typecheck_Mult_ok_iff (l r : Expr) :
    typecheck (.Mult l r) = .ok .IntType ↔
      (typecheck l = .ok .IntType ∧ typecheck r = .ok .IntType) := by
  simp only [typecheck]
  cases h1 : typecheck l with
  | error m => simp [h1]
  | ok t1 =>
    cases h2 : typecheck r with
    | error m => cases t1 <;> simp
    | ok t2 => cases t1 <;> cases t2 <;> simp

lemma typecheck_Mult_ne_Bool (l r : Expr) :
    typecheck (.Mult l r) ≠ .ok .BoolType := by
  simp only [typecheck]
  cases h1 : typecheck l with
  | error m => simp
  | ok t1 =>
    cases h2 : typecheck r with
    | error m => cases t1 <;> simp
    | ok t2 => cases t1 <;> cases t2 <;> simp

lemma typecheck_Or_ok_iff (l r : Expr) :
    typecheck (.Or l r) = .ok .BoolType ↔
      (typecheck l = .ok .BoolType ∧ typecheck r = .ok .BoolType) := by
  simp only [typecheck]
  cases h1 : typecheck l with
  | error m => simp [h1]
  | ok t1 =>
    cases h2 : typecheck r with
    | error m => cases t1 <;> simp
    | ok t2 => cases t1 <;> cases t2 <;> simp

lemma typecheck_Or_ne_Int (l r : Expr) :
    typecheck (.Or l r) ≠ .ok .IntType := by
  simp only [typecheck]
  cases h1 : typecheck l with
  | error m => simp
  | ok t1 =>
    cases h2 : typecheck r with
    | error m => cases t1 <;> simp
    | ok t2 => cases t1 <;> cases t2 <;> simp

lemma typecheck_And_ok_iff (l r : Expr) :
    typecheck (.And l r) = .ok .BoolType ↔
      (typecheck l = .ok .BoolType ∧ typecheck r = .ok .BoolType) := by
  simp only [typecheck]
  cases h1 : typecheck l with
  | error m => simp [h1]
  | ok t1 =>
    cases h2 : typecheck r with
    | error m => cases t1 <;> simp
    | ok t2 => cases t1 <;> cases t2 <;> simp

lemma typecheck_And_ne_Int (l r : Expr) :
    typecheck (.And l r) ≠ .ok .IntType := by
  simp only [typecheck]
  cases h1 : typecheck l with
  | error m => simp
  | ok t1 =>
    cases h2 : typecheck r with
    | error m => cases t1 <;> simp
    | ok t2 => cases t1 <;> cases t2 <;> simp

/-- A result over Ty is an error exactly when it is neither of the two
possible successes. -/
lemma tyResult_error_iff (x : Except String Ty) :
    (∃ m, x = .error m) ↔ (x ≠ .ok .IntType ∧ x ≠ .ok .BoolType) := by
  cases x with
  | error m => simp
  | ok t => cases t <;> simp

lemma typecheck_Plus_err_iff (l r : Expr) :
    (∃ m, typecheck (.Plus l r) = .error m) ↔
      ¬(typecheck l = .ok .IntType ∧ typecheck r = .ok .IntType) := by
  rw [tyResult_error_iff]
  simp [typecheck_Plus_ok_iff, typecheck_Plus_ne_Bool]

lemma typecheck_Mult_err_iff (l r : Expr) :
    (∃ m, typecheck (.Mult l r) = .error m) ↔
      ¬(typecheck l = .ok .IntType ∧ typecheck r = .ok .IntType) := by
  rw [tyResult_error_iff]
  simp [typecheck_Mult_ok_iff, typecheck_Mult_ne_Bool]

lemma typecheck_Or_err_iff (l r : Expr) :
    (∃ m, typecheck (.Or l r) = .error m) ↔
      ¬(typecheck l = .ok .BoolType ∧ typecheck r = .ok .BoolType) := by
  rw [tyResult_error_iff]
  simp [typecheck_Or_ok_iff, typecheck_Or_ne_Int]

lemma typecheck_And_err_iff (l r : Expr) :
    (∃ m, typecheck (.And l r) = .error m) ↔
      ¬(typecheck l = .ok .BoolType ∧ typecheck r = .ok .BoolType) := by
  rw [tyResult_error_iff]
  simp [typecheck_And_ok_iff, typecheck_And_ne_Int]

/-! Helper lemmas: case characterizations of eval_t on binary nodes. -/

/-- A result over Either is an error exactly when it is neither a Left
success nor a Right success. -/
lemma evalResult_error_iff (x : Except String (Either Int Bool)) :
    (∃ m, x = .error m) ↔
      (¬(∃ a, x = .ok (.Left a)) ∧ ¬(∃ b, x = .ok (.Right b))) := by
  cases x with
  | error m => simp
  | ok v => cases v <;> simp

lemma eval_Plus_okLeft_iff (l r : Expr) :
    (∃ n, eval_t (.Plus l r) = .ok (.Left n)) ↔
      ((∃ a, eval_t l = .ok (.Left a)) ∧ (∃ b, eval_t r = .ok (.Left b))) := by
  simp only [eval_t]
  cases h1 : eval_t l with
  | error m => simp
  | ok v1 =>
    cases h2 : eval_t r with
    | error m => cases v1 <;> simp
    | ok v2 => cases v1 <;> cases v2 <;> simp

lemma eval_Plus_ne_Right (l r : Expr) (b : Bool) :
    eval_t (.Plus l r) ≠ .ok (.Right b) := by
  simp only [eval_t]
  cases h1 : eval_t l with
  | error m => simp
  | ok v1 =>
    cases h2 : eval_t r with
    | error m => cases v1 <;> simp
    | ok v2 => cases v1 <;> cases v2 <;> simp

/-- The Mult arm of eval_t never looks at its right operand: unfolding
the definition at Mult yields a term mentioning only the left child. -/
lemma eval_Mult_irrel (l r r' : Expr) :
    eval_t (.Mult l r) = eval_t (.Mult l r') := rfl

lemma eval_Mult_okLeft (l r : Expr) (a : Int)
    (h : eval_t l = .ok (.Left a)) :
    eval_t (.Mult l r) = .ok (.Left (mulI32 a a)) := by
  simp [eval_t, h]

lemma eval_Mult_okLeft_iff (l r : Expr) :
    (∃ n, eval_t (.Mult l r) = .ok (.Left n)) ↔
      (∃ a, eval_t l = .ok (.Left a)) := by
  simp only [eval_t]
  cases h1 : eval_t l with
  | error m => simp
  | ok v1 => cases v1 <;> simp

lemma eval_Mult_ne_Right (l r : Expr) (b : Bool) :
    eval_t (.Mult l r) ≠ .ok (.Right b) := by
  simp only [eval_t]
  cases h1 : eval_t l with
  | error m => simp
  | ok v1 => cases v1 <;> simp

lemma eval_Plus_err_iff (l r : Expr) :
    (∃ m, eval_t (.Plus l r) = .error m) ↔
      ¬((∃ a, eval_t l = .ok (.Left a)) ∧ (∃ b, eval_t r = .ok (.Left b))) := by
  rw [evalResult_error_iff]
  simp only [eval_Plus_okLeft_iff]
  have h := eval_Plus_ne_Right l r
  simp only [not_exists]
  tauto

lemma eval_Mult_err_iff (l r : Expr) :
    (∃ m, eval_t (.Mult l r) = .error m) ↔
      ¬(∃ a, eval_t l = .ok (.Left a)) := by
  rw [evalResult_error_iff]
  simp only [eval_Mult_okLeft_iff]
  have h := eval_Mult_ne_Right l r
  simp only [not_exists]
  tauto

lemma eval_Plus_okBoth (l r : Expr) (a b : Int)
    (h1 : eval_t l = .ok (.Left a)) (h2 : eval_t r = .ok (.Left b)) :
    eval_t (.Plus l r) = .ok (.Left (addI32 a b)) := by
  simp [eval_t, h1, h2]

lemma eval_Or_okBoth (l r : Expr) (a b : Bool)
    (h1 : eval_t l = .ok (.Right a)) (h2 : eval_t r = .ok (.Right b)) :
    eval_t (.Or l r) = .ok (.Right (a || b)) := by
  simp [eval_t, h1, h2]

lemma eval_And_okBoth (l r : Expr) (a b : Bool)
    (h1 : eval_t l = .ok (.Right a)) (h2 : eval_t r = .ok (.Right b)) :
    eval_t (.And l r) = .ok (.Right (a && b)) := by
  simp [eval_t, h1, h2]

/-! Claim theorems. -/

/-- C1: typecheck on Plus and Mult returns Ok IntType exactly when both
operands typecheck to IntType, and returns an Err otherwise; typecheck
on Or and And returns Ok BoolType exactly when both operands typecheck
to BoolType, and returns an Err otherwise. -/
theorem typecheck_binop_homogeneity (l r : Expr) :
    (typecheck (.Plus l r) = .ok .IntType ↔
      (typecheck l = .ok .IntType ∧ typecheck r = .ok .IntType)) ∧
    ((∃ m, typecheck (.Plus l r) = .error m) ↔
      ¬(typecheck l = .ok .IntType ∧ typecheck r = .ok .IntType)) ∧
    (typecheck (.Mult l r) = .ok .IntType ↔
      (typecheck l = .ok .IntType ∧ typecheck r = .ok .IntType)) ∧
    ((∃ m, typecheck (.Mult l r) = .error m) ↔
      ¬(typecheck l = .ok .IntType ∧ typecheck r = .ok .IntType)) ∧
    (typecheck (.Or l r) = .ok .BoolType ↔
      (typecheck l = .ok .BoolType ∧ typecheck r = .ok .BoolType)) ∧
    ((∃ m, typecheck (.Or l r) = .error m) ↔
      ¬(typecheck l = .ok .BoolType ∧ typecheck r = .ok .BoolType)) ∧
    (typecheck (.And l r) = .ok .BoolType ↔
      (typecheck l = .ok .BoolType ∧ typecheck r = .ok .BoolType)) ∧
    ((∃ m, typecheck (.And l r) = .error m) ↔
      ¬(typecheck l = .ok .BoolType ∧ typecheck r = .ok .BoolType)) :=
  ⟨typecheck_Plus_ok_iff l r, typecheck_Plus_err_iff l r,
   typecheck_Mult_ok_iff l r, typecheck_Mult_err_iff l r,
   typecheck_Or_ok_iff l r, typecheck_Or_err_iff l r,
   typecheck_And_ok_iff l r, typecheck_And_err_iff l r⟩

/-- C2: the Mult arm of eval_t evaluates its left operand for both sides
of the pairwise match and never evaluates the right operand: the result
is the same for every right operand, and when the left operand reduces
to Left a the result is Ok (Left (a * a)). -/
theorem eval_Mult_uses_left_twice (l r r' : Expr) :
    eval_t (.Mult l r) = eval_t (.Mult l r') ∧
    ∀ a : Int, eval_t l = .ok (.Left a) →
      eval_t (.Mult l r) = .ok (.Left (mulI32 a a)) :=
  ⟨eval_Mult_irrel l r r', fun a h => eval_Mult_okLeft l r a h⟩

/-- C2 witness: with left operand One and right operand ETrue, the Mult
result equals the result with right operand Zero, and is Ok (Left (1 * 1)). -/
theorem eval_Mult_uses_left_twice_witness :
    eval_t (.Mult .One .ETrue) = eval_t (.Mult .One .Zero) ∧
    eval_t (.Mult .One .ETrue) = .ok (.Left (mulI32 1 1)) :=
  ⟨(eval_Mult_uses_left_twice .One .ETrue .Zero).1,
   (eval_Mult_uses_left_twice .One .ETrue .Zero).2 1 rfl⟩

/-- C3 counterexample: eval_t on Mult One ETrue succeeds even though the
right operand ETrue reduces to the boolean Right variant, not the
integer Left variant, refuting the claim that Mult succeeds only when
both operands reduce to Left. -/
theorem eval_Mult_succeeds_on_bool_right :
    eval_t (.Mult .One .ETrue) = .ok (.Left 1) ∧
    eval_t .ETrue = .ok (.Right true) := ⟨rfl, rfl⟩

/-- C3 amended: eval_t on Plus succeeds (with a Left result) exactly
when both operands reduce to the Left integer variant and errs
otherwise, while eval_t on Mult succeeds exactly when the LEFT operand
reduces to the Left integer variant, independent of the right operand,
and errs otherwise. -/
theorem eval_arith_success_iff (l r : Expr) :
    ((∃ n, eval_t (.Plus l r) = .ok (.Left n)) ↔
      ((∃ a, eval_t l = .ok (.Left a)) ∧ (∃ b, eval_t r = .ok (.Left b)))) ∧
    ((∃ m, eval_t (.Plus l r) = .error m) ↔
      ¬((∃ a, eval_t l = .ok (.Left a)) ∧ (∃ b, eval_t r = .ok (.Left b)))) ∧
    ((∃ n, eval_t (.Mult l r) = .ok (.Left n)) ↔
      (∃ a, eval_t l = .ok (.Left a))) ∧
    ((∃ m, eval_t (.Mult l r) = .error m) ↔
      ¬(∃ a, eval_t l = .ok (.Left a))) :=
  ⟨eval_Plus_okLeft_iff l r, eval_Plus_err_iff l r,
   eval_Mult_okLeft_iff l r, eval_Mult_err_iff l r⟩

/-- C4: evaluating the checker at mismatching inputs shows the actual
messages: the Plus and Mult messages name their own operator, but the
Or and And mismatch messages both name the Mult operator (with the bool
constraint), not Or or And. -/
theorem typecheck_mismatch_messages :
    typecheck (.Plus .ETrue .ETrue) =
      .error "Plus expression expects int types on both sides! " ∧
    typecheck (.Mult .ETrue .ETrue) =
      .error "Mult expression expects int types on both sides! " ∧
    typecheck (.Or .One .One) =
      .error "Mult expression expects bool types on both sides! " ∧
    typecheck (.And .One .One) =
      .error "Mult expression expects bool types on both sides! " :=
  ⟨rfl, rfl, rfl, rfl⟩

/-- C5: if the left operand of any binary node fails to typecheck with
message m, the whole node fails with exactly that message, for every
right operand. -/
theorem typecheck_failfast_left (l r : Expr) (m : String)
    (h : typecheck l = .error m) :
    typecheck (.Plus l r) = .error m ∧
    typecheck (.Mult l r) = .error m ∧
    typecheck (.Or l r) = .error m ∧
    typecheck (.And l r) = .error m := by
  refine ⟨?_, ?_, ?_, ?_⟩ <;> simp [typecheck, h]

/-- C5 witness: Plus One ETrue fails with the Plus message, and an Or
node with that failing left child propagates the very same message. -/
theorem typecheck_failfast_left_witness :
    typecheck (.Plus .One .ETrue) =
      .error "Plus expression expects int types on both sides! " ∧
    typecheck (.Or (.Plus .One .ETrue) .ETrue) =
      .error "Plus expression expects int types on both sides! " :=
  ⟨rfl,
   (typecheck_failfast_left (.Plus .One .ETrue) .ETrue
     "Plus expression expects int types on both sides! " rfl).2.2.1⟩

/-- C6: the four literal cases of typecheck: One and Zero are IntType,
ETrue and EFalse are BoolType, never a failure. -/
theorem typecheck_literals :
    typecheck .One = .ok .IntType ∧
    typecheck .Zero = .ok .IntType ∧
    typecheck .ETrue = .ok .BoolType ∧
    typecheck .EFalse = .ok .BoolType :=
  ⟨rfl, rfl, rfl, rfl⟩

/-- C7: rendering is structural and total: literals render as their
surface forms, each binary node renders as the parenthesized infix form
with its symbol, Or EFalse ETrue renders as the expected string, and
And One Zero renders as the expected string even though that expression
fails to typecheck. -/
theorem fmt_structural (l r : Expr) :
    fmt .One = "1" ∧
    fmt .Zero = "0" ∧
    fmt .ETrue = "true" ∧
    fmt .EFalse = "false" ∧
    fmt (.Plus l r) = "(" ++ fmt l ++ " + " ++ fmt r ++ ")" ∧
    fmt (.Mult l r) = "(" ++ fmt l ++ " * " ++ fmt r ++ ")" ∧
    fmt (.Or l r) = "(" ++ fmt l ++ " || " ++ fmt r ++ ")" ∧
    fmt (.And l r) = "(" ++ fmt l ++ " && " ++ fmt r ++ ")" ∧
    fmt (.Or .EFalse .ETrue) = "(false || true)" ∧
    fmt (.And .One .Zero) = "(1 && 0)" ∧
    (∃ m, typecheck (.And .One .Zero) = .error m) :=
  ⟨rfl, rfl, rfl, rfl, rfl, rfl, rfl, rfl, rfl, rfl,
   ⟨"Mult expression expects bool types on both sides! ", rfl⟩⟩

/-- C8: for every expression, typecheck and eval_t each produce a value
of their result type: either a success or a typed failure; no other
outcome exists. -/
theorem typecheck_eval_total (e : Expr) :
    ((∃ t, typecheck e = .ok t) ∨ (∃ m, typecheck e = .error m)) ∧
    ((∃ v, eval_t e = .ok v) ∨ (∃ m, eval_t e = .error m)) := by
  constructor
  · cases h : typecheck e with
    | ok t => exact Or.inl ⟨t, rfl⟩
    | error m => exact Or.inr ⟨m, rfl⟩
  · cases h : eval_t e with
    | ok v => exact Or.inl ⟨v, rfl⟩
    | error m => exact Or.inr ⟨m, rfl⟩

/-- C9: typecheck is deterministic: two calls on the same tree yield
identical results, as it is a pure function of its input. -/
theorem typecheck_deterministic (e : Expr) :
    typecheck e = typecheck e := rfl

/-- C10: type soundness: a checked IntType expression evaluates to an
integer Left value and a checked BoolType expression evaluates to a
boolean Right value; eval_t never fails on a well-typed expression. -/
theorem type_soundness (e : Expr) :
    (typecheck e = .ok .IntType → ∃ n, eval_t e = .ok (.Left n)) ∧
    (typecheck e = .ok .BoolType → ∃ b, eval_t e = .ok (.Right b)) := by
  induction e with
  | One => exact ⟨fun _ => ⟨1, rfl⟩, fun h => by simp [typecheck] at h⟩
  | Zero => exact ⟨fun _ => ⟨0, rfl⟩, fun h => by simp [typecheck] at h⟩
  | ETrue => exact ⟨fun h => by simp [typecheck] at h, fun _ => ⟨true, rfl⟩⟩
  | EFalse => exact ⟨fun h => by simp [typecheck] at h, fun _ => ⟨false, rfl⟩⟩
  | Plus l r ihl ihr =>
    refine ⟨fun h => ?_, fun h => absurd h (typecheck_Plus_ne_Bool l r)⟩
    rw [typecheck_Plus_ok_iff] at h
    obtain ⟨a, ha⟩ := ihl.1 h.1
    obtain ⟨b, hb⟩ := ihr.1 h.2
    exact ⟨addI32 a b, eval_Plus_okBoth l r a b ha hb⟩
  | Mult l r ihl ihr =>
    refine ⟨fun h => ?_, fun h => absurd h (typecheck_Mult_ne_Bool l r)⟩
    rw [typecheck_Mult_ok_iff] at h
    obtain ⟨a, ha⟩ := ihl.1 h.1
    exact ⟨mulI32 a a, eval_Mult_okLeft l r a ha⟩
  | Or l r ihl ihr =>
    refine ⟨fun h => absurd h (typecheck_Or_ne_Int l r), fun h => ?_⟩
    rw [typecheck_Or_ok_iff] at h
    obtain ⟨a, ha⟩ := ihl.2 h.1
    obtain ⟨b, hb⟩ := ihr.2 h.2
    exact ⟨a || b, eval_Or_okBoth l r a b ha hb⟩
  | And l r ihl ihr =>
    refine ⟨fun h => absurd h (typecheck_And_ne_Int l r), fun h => ?_⟩
    rw [typecheck_And_ok_iff] at h
    obtain ⟨a, ha⟩ := ihl.2 h.1
    obtain ⟨b, hb⟩ := ihr.2 h.2
    exact ⟨a && b, eval_And_okBoth l r a b ha hb⟩

/-- C10 witness: Or ETrue EFalse typechecks to BoolType and eval_t
produces a boolean Right value on it. -/
theorem type_soundness_witness :
    typecheck (.Or .ETrue .EFalse) = .ok .BoolType ∧
    (∃ b, eval_t (.Or .ETrue .EFalse) = .ok (.Right b)) :=
  ⟨rfl, (type_soundness (.Or .ETrue .EFalse)).2 rfl⟩

end MbswTypechecker
